import Mathlib

/-!
Shallow embedding of the task admission / queuing / execution / notification
engine of `app.py` (functions `create_app.process_queue` and
`create_app.queue_task.wrapper`) and of `services/file_management.py`
(function `download_file`).

Modelling conventions:
* Python dict response envelopes are association lists `List (String × JValue)`
  written with exactly the keys, in exactly the order, of the source dict
  literals.
* Wall-clock readings (`time.time()`) are passed in as explicit rational
  parameters, one per call site, in source order.
* The queue, the `log_job_status` event sink and the `send_webhook` sink are
  the three components of an `EngineState`; pushing a job, logging a status
  and sending a webhook append to the corresponding list.
* Python `round(x, 3)` is round-half-to-even on rationals (`round3`).
-/

/-- A JSON-like value as stored in the Python response dicts. -/
inductive JValue where
  | null
  | bool (b : Bool)
  | str (s : String)
  | num (q : ℚ)
deriving DecidableEq

instance : IntCast JValue := ⟨fun n => JValue.num n⟩
instance : NatCast JValue := ⟨fun n => JValue.num n⟩

/-- The request payload (`data = request.json`): the engine only reads the
reserved keys `id` and `webhook_url`.  `webhookUrl = none` models the key
being absent from the dict; `some s` models presence with value `s`. -/
structure Payload where
  id : JValue
  webhookUrl : Option String
deriving DecidableEq

/-- The `(body, endpoint_name, status_code)` triple returned by a wrapped
work function `f`. -/
structure WorkResult where
  body : JValue
  endpoint : String
  code : Int
deriving DecidableEq

/-- Job lifecycle states used in `log_job_status` calls. -/
inductive JobStatus where
  | queued
  | running
  | done
deriving DecidableEq

/-- One `log_job_status(job_id, {...})` record. -/
structure StatusEvent where
  job_status : JobStatus
  job_id : String
  queue_id : Nat
  process_id : Nat
  response : Option (List (String × JValue))
deriving DecidableEq

/-- The tuple `(job_id, data, task_func, queue_start_time)` placed on
`task_queue`; the closure `lambda: f(...)` is deterministic, so it is
represented by the `WorkResult` it will return. -/
structure Job where
  jobId : String
  data : Payload
  work : WorkResult
  queueStartTime : ℚ
deriving DecidableEq

/-- The mutable state shared by admissions and the worker: the FIFO
`task_queue` (front = next to be dequeued), the ordered log of
`log_job_status` events, and the ordered list of `send_webhook` calls
(address, envelope). -/
structure EngineState where
  queue : List Job
  events : List StatusEvent
  webhooks : List (String × List (String × JValue))
deriving DecidableEq

/-- Per-process configuration: `MAX_QUEUE_LENGTH` (from the environment,
an integer, `0` meaning unlimited), `os.getpid()`, `id(task_queue)` and
`BUILD_NUMBER` (imported from `version.py`, opaque here). -/
structure Config where
  maxQueueLength : Int
  pid : Nat
  queueId : Nat
  buildNumber : JValue
deriving DecidableEq

/-- Python `round` on an exact rational: round half to even. -/
def roundHalfEven (q : ℚ) : ℤ :=
  if q - ⌊q⌋ < 1/2 then ⌊q⌋
  else if 1/2 < q - ⌊q⌋ then ⌊q⌋ + 1
  else if ⌊q⌋ % 2 = 0 then ⌊q⌋ else ⌊q⌋ + 1

/-- Python `round(x, 3)`. -/
def round3 (q : ℚ) : ℚ := (roundHalfEven (q * 1000) : ℚ) / 1000

/-- Field lookup in an envelope; a missing key reads as `null`
(Python `dict.get`). -/
def lookupField : List (String × JValue) → String → JValue
  | [], _ => .null
  | p :: rest, k => if p.1 = k then p.2 else lookupField rest k

/-- The key set of an envelope, in construction order. -/
def envKeys (env : List (String × JValue)) : List String := env.map (·.1)

/-- The `response_obj` dict built on the inline (bypass) path of
`queue_task.wrapper`, lines 116–129 of `app.py`. -/
def inline_response_obj (cfg : Config) (data : Payload) (jobId : String)
    (response : WorkResult) (run_time : ℚ) (queue_length : Nat) :
    List (String × JValue) :=
  [("code", .num response.code),
   ("id", data.id),
   ("job_id", .str jobId),
   ("response", if response.code = 200 then response.body else .null),
   ("message", if response.code = 200 then .str "success" else response.body),
   ("run_time", .num (round3 run_time)),
   ("queue_time", .num 0),
   ("total_time", .num (round3 run_time)),
   ("pid", .num cfg.pid),
   ("queue_id", .num cfg.queueId),
   ("queue_length", .num queue_length),
   ("build_number", cfg.buildNumber)]

/-- The `error_response` dict built on queue overflow in
`queue_task.wrapper`, lines 143–152 of `app.py`. -/
def error_response (cfg : Config) (data : Payload) (jobId : String)
    (queue_length : Nat) : List (String × JValue) :=
  [("code", .num 429),
   ("id", data.id),
   ("job_id", .str jobId),
   ("message", .str ("MAX_QUEUE_LENGTH (" ++ toString cfg.maxQueueLength
      ++ ") reached")),
   ("pid", .num cfg.pid),
   ("queue_id", .num cfg.queueId),
   ("queue_length", .num queue_length),
   ("build_number", cfg.buildNumber)]

/-- The acknowledgement dict returned with 202 after `task_queue.put`,
lines 176–186 of `app.py`. -/
def ack_response (cfg : Config) (data : Payload) (jobId : String)
    (queue_length : Nat) : List (String × JValue) :=
  [("code", .num 202),
   ("id", data.id),
   ("job_id", .str jobId),
   ("message", .str "processing"),
   ("pid", .num cfg.pid),
   ("queue_id", .num cfg.queueId),
   ("max_queue_length",
     if 0 < cfg.maxQueueLength then .num cfg.maxQueueLength
     else .str "unlimited"),
   ("queue_length", .num queue_length),
   ("build_number", cfg.buildNumber)]

/-- The `response_data` dict built by the worker in `process_queue`,
lines 59–73 of `app.py`. -/
def worker_response_data (cfg : Config) (data : Payload) (jobId : String)
    (response : WorkResult) (run_time queue_time total_time : ℚ)
    (queue_length : Nat) : List (String × JValue) :=
  [("endpoint", .str response.endpoint),
   ("code", .num response.code),
   ("id", data.id),
   ("job_id", .str jobId),
   ("response", if response.code = 200 then response.body else .null),
   ("message", if response.code = 200 then .str "success" else response.body),
   ("pid", .num cfg.pid),
   ("queue_id", .num cfg.queueId),
   ("run_time", .num (round3 run_time)),
   ("queue_time", .num (round3 queue_time)),
   ("total_time", .num (round3 total_time)),
   ("queue_length", .num queue_length),
   ("build_number", cfg.buildNumber)]

/-- The admission wrapper `queue_task(bypass_queue)(f).wrapper`
(lines 96–187 of `app.py`).  `jobId` stands for the fresh
`str(uuid.uuid4())`, `startTime` for the `time.time()` at line 100 and
`afterRunTime` for the `time.time()` at line 114 (only read on the inline
path).  Returns the Flask `(body, status)` pair together with the updated
engine state. -/
def wrapper (cfg : Config) (bypass_queue : Bool) (jobId : String)
    (data : Payload) (f : WorkResult) (startTime afterRunTime : ℚ)
    (st : EngineState) :
    (List (String × JValue) × Int) × EngineState :=
  if bypass_queue = true ∨ data.webhookUrl = none then
    let st1 : EngineState :=
      ⟨st.queue,
       st.events ++ [⟨.running, jobId, cfg.queueId, cfg.pid, none⟩],
       st.webhooks⟩
    let response := f
    let run_time := afterRunTime - startTime
    let response_obj :=
      inline_response_obj cfg data jobId response run_time st1.queue.length
    let st2 : EngineState :=
      ⟨st1.queue,
       st1.events ++ [⟨.done, jobId, cfg.queueId, cfg.pid, some response_obj⟩],
       st1.webhooks⟩
    ((response_obj, response.code), st2)
  else
    if 0 < cfg.maxQueueLength ∧ cfg.maxQueueLength ≤ (st.queue.length : Int)
    then
      let err := error_response cfg data jobId st.queue.length
      let st1 : EngineState :=
        ⟨st.queue,
         st.events ++ [⟨.done, jobId, cfg.queueId, cfg.pid, some err⟩],
         st.webhooks⟩
      ((err, 429), st1)
    else
      let st1 : EngineState :=
        ⟨st.queue,
         st.events ++ [⟨.queued, jobId, cfg.queueId, cfg.pid, none⟩],
         st.webhooks⟩
      let st2 : EngineState :=
        ⟨st1.queue ++ [⟨jobId, data, f, startTime⟩], st1.events, st1.webhooks⟩
      ((ack_response cfg data jobId st2.queue.length, 202), st2)

/-- The webhook calls made at lines 84–86 of `app.py`:
`send_webhook` is invoked only when `data.get("webhook_url")` is truthy
(the key is present with a non-empty string value). -/
def notifyList (data : Payload) (response_data : List (String × JValue)) :
    List (String × List (String × JValue)) :=
  match data.webhookUrl with
  | some u => if u = "" then [] else [(u, response_data)]
  | none => []

/-- One iteration of the worker loop `process_queue` (lines 40–88 of
`app.py`).  `c1 c2 c3 c4` are the four `time.time()` readings at lines
42, 43, 56 and 57, in order.  Returns `none` when the queue is empty
(the Python loop blocks there). -/
def process_queue_step (cfg : Config) (c1 c2 c3 c4 : ℚ) (st : EngineState) :
    Option EngineState :=
  match st.queue with
  | [] => none
  | job :: rest =>
    let queue_time := c1 - job.queueStartTime
    let run_start_time := c2
    let response := job.work
    let run_time := c3 - run_start_time
    let total_time := c4 - job.queueStartTime
    let response_data :=
      worker_response_data cfg job.data job.jobId response
        run_time queue_time total_time rest.length
    some ⟨rest,
          st.events ++
            [⟨.running, job.jobId, cfg.queueId, cfg.pid, none⟩,
             ⟨.done, job.jobId, cfg.queueId, cfg.pid, some response_data⟩],
          st.webhooks ++ notifyList job.data response_data⟩

/-- Running the single worker for as many iterations as there are clock
quadruples (stopping early on an empty queue). -/
def runWorker (cfg : Config) : List (ℚ × ℚ × ℚ × ℚ) → EngineState → EngineState
  | [], st => st
  | c :: cs, st =>
    match process_queue_step cfg c.1 c.2.1 c.2.2.1 c.2.2.2 st with
    | none => st
    | some st1 => runWorker cfg cs st1

/-- Projection of a status event to the pair the ordering claims are
about. -/
def eventSig (e : StatusEvent) : String × JobStatus := (e.job_id, e.job_status)

/-! ## `download_file` (`services/file_management.py`, lines 110–139)

The filesystem is a characteristic function of existing paths; the network
effects of `requests.get`, `response.iter_content` and the authenticated S3
transfer are abstracted by outcome parameters, one per effectful call, in
source order.  The model starts after `local_filename` has been chosen
(line 121): `get_extension_from_url` raising earlier never touches the
filesystem. -/

/-- Outcome of `requests.get(url, stream=True)` (line 124): either the call
itself raises (no response at all), or it yields a response with the given
HTTP status code. -/
inductive HttpGet where
  | raises
  | status (code : Int)
deriving DecidableEq

/-- Outcome of `_download_from_s3_with_credentials` (called at line 127):
returns `False` without touching the destination (unparsable URL or missing
credentials), succeeds after writing the file, or raises after having
started writing the destination file. -/
inductive S3Attempt where
  | returnsFalse
  | succeeds
  | raisesAfterOpen
deriving DecidableEq

/-- Outcome of the streaming write loop (lines 131–134): the `open` creates
the file either way; the chunk iteration then completes or raises midway. -/
inductive StreamWrite where
  | completes
  | raisesMidway
deriving DecidableEq

/-- `open(path, "wb")` / a completed write: the path now exists. -/
def fsWrite (fs : String → Bool) (p : String) : String → Bool :=
  fun q => if q = p then true else fs q

/-- `os.remove(path)`. -/
def fsRemove (fs : String → Bool) (p : String) : String → Bool :=
  fun q => if q = p then false else fs q

/-- The `except` clause (lines 136–139):
`if os.path.exists(local_filename): os.remove(local_filename)`. -/
def exceptCleanup (fs : String → Bool) (p : String) : String → Bool :=
  if fs p = true then fsRemove fs p else fs

/-- `download_file` after `local_filename` is fixed: returns the final
filesystem and `some local_filename` on return, `none` when the original
exception is re-raised. -/
def download_file (get : HttpGet) (s3 : S3Attempt) (stream : StreamWrite)
    (local_filename : String) (fs : String → Bool) :
    (String → Bool) × Option String :=
  match get with
  | .raises => (exceptCleanup fs local_filename, none)
  | .status code =>
    if code = 403 then
      match s3 with
      | .succeeds => (fsWrite fs local_filename, some local_filename)
      | .raisesAfterOpen =>
        (exceptCleanup (fsWrite fs local_filename) local_filename, none)
      | .returnsFalse =>
        (exceptCleanup fs local_filename, none)
    else if 400 ≤ code ∧ code < 600 then
      (exceptCleanup fs local_filename, none)
    else
      match stream with
      | .completes => (fsWrite fs local_filename, some local_filename)
      | .raisesMidway =>
        (exceptCleanup (fsWrite fs local_filename) local_filename, none)

/-! ## Concrete instances used by witnesses and counterexamples -/

/-- A configuration with unlimited queue (`MAX_QUEUE_LENGTH = 0`). -/
def cfg0 : Config := ⟨0, 7, 42, .num 99⟩

/-- A configuration with `MAX_QUEUE_LENGTH = 2`. -/
def cfg2 : Config := ⟨2, 7, 42, .num 99⟩

/-- A payload carrying a callback address. -/
def payloadCb : Payload := ⟨.str "abc", some "http://cb"⟩

/-- A payload whose `webhook_url` key is absent. -/
def payloadNoCb : Payload := ⟨.null, none⟩

/-- A payload whose `webhook_url` key is present with the empty string. -/
def payloadEmptyCb : Payload := ⟨.null, some ""⟩

/-- A successful work result. -/
def workOk : WorkResult := ⟨.str "ok", "ep", 200⟩

/-- The failing work result of spec Scenario B. -/
def workOops : WorkResult := ⟨.str "oops", "convert", 500⟩

/-- The empty engine state. -/
def st0 : EngineState := ⟨[], [], []⟩

/-- A state whose queue already holds two jobs. -/
def stFull : EngineState :=
  ⟨[⟨"a", payloadCb, workOk, 0⟩, ⟨"b", payloadCb, workOk, 0⟩], [], []⟩

/-! ## Branch lemmas for `wrapper` -/

/-- On the inline path (bypass set, or no `webhook_url` key) `wrapper`
runs `f` synchronously, logs running then done, and leaves queue and
webhooks untouched. -/
theorem wrapper_inline_eq (cfg : Config) (bq : Bool) (jobId : String)
    (data : Payload) (f : WorkResult) (t0 t1 : ℚ) (st : EngineState)
    (h : bq = true ∨ data.webhookUrl = none) :
    wrapper cfg bq jobId data f t0 t1 st =
      ((inline_response_obj cfg data jobId f (t1 - t0) st.queue.length,
        f.code),
       ⟨st.queue,
        st.events ++
          [⟨.running, jobId, cfg.queueId, cfg.pid, none⟩,
           ⟨.done, jobId, cfg.queueId, cfg.pid,
             some (inline_response_obj cfg data jobId f (t1 - t0)
               st.queue.length)⟩],
        st.webhooks⟩) := by
  unfold wrapper
  rw [if_pos h]
  simp

/-- On the deferred path with the queue at or over a positive capacity,
`wrapper` rejects with 429 and only logs a done event. -/
theorem wrapper_reject_eq (cfg : Config) (jobId : String) (data : Payload)
    (f : WorkResult) (t0 t1 : ℚ) (st : EngineState) (u : String)
    (hW : data.webhookUrl = some u)
    (hfull : 0 < cfg.maxQueueLength ∧
      cfg.maxQueueLength ≤ (st.queue.length : Int)) :
    wrapper cfg false jobId data f t0 t1 st =
      ((error_response cfg data jobId st.queue.length, 429),
       ⟨st.queue,
        st.events ++
          [⟨.done, jobId, cfg.queueId, cfg.pid,
            some (error_response cfg data jobId st.queue.length)⟩],
        st.webhooks⟩) := by
  unfold wrapper
  rw [if_neg (by simp [hW]), if_pos hfull]

/-- On the deferred path under capacity, `wrapper` logs a queued event,
pushes the job and acknowledges with 202. -/
theorem wrapper_accept_eq (cfg : Config) (jobId : String) (data : Payload)
    (f : WorkResult) (t0 t1 : ℚ) (st : EngineState) (u : String)
    (hW : data.webhookUrl = some u)
    (hcap : ¬(0 < cfg.maxQueueLength ∧
      cfg.maxQueueLength ≤ (st.queue.length : Int))) :
    wrapper cfg false jobId data f t0 t1 st =
      ((ack_response cfg data jobId (st.queue.length + 1), 202),
       ⟨st.queue ++ [⟨jobId, data, f, t0⟩],
        st.events ++ [⟨.queued, jobId, cfg.queueId, cfg.pid, none⟩],
        st.webhooks⟩) := by
  unfold wrapper
  rw [if_neg (by simp [hW]), if_neg hcap]
  simp

/-! ## Claims C1, C2, C5, C6 -/

/-- C1: with a callback address present, bypass unset, and the queue
strictly below the configured maximum (or the maximum 0 = unlimited),
admission logs a queued StatusEvent, pushes exactly one job (queue length
grows by exactly one), and returns a 202 envelope with message
"processing" and a `max_queue_length` field equal to the configured
maximum, or "unlimited" when the maximum is 0. -/
theorem wrapper_deferred_enqueues (cfg : Config) (jobId : String)
    (data : Payload) (f : WorkResult) (t0 t1 : ℚ) (st : EngineState)
    (u : String) (hW : data.webhookUrl = some u)
    (hcap : cfg.maxQueueLength = 0 ∨
      (st.queue.length : Int) < cfg.maxQueueLength) :
    (wrapper cfg false jobId data f t0 t1 st).1.2 = 202
    ∧ (wrapper cfg false jobId data f t0 t1 st).2.queue =
        st.queue ++ [⟨jobId, data, f, t0⟩]
    ∧ (wrapper cfg false jobId data f t0 t1 st).2.queue.length =
        st.queue.length + 1
    ∧ (wrapper cfg false jobId data f t0 t1 st).2.events =
        st.events ++ [⟨.queued, jobId, cfg.queueId, cfg.pid, none⟩]
    ∧ lookupField (wrapper cfg false jobId data f t0 t1 st).1.1 "code" =
        .num 202
    ∧ lookupField (wrapper cfg false jobId data f t0 t1 st).1.1 "message" =
        .str "processing"
    ∧ lookupField (wrapper cfg false jobId data f t0 t1 st).1.1
        "max_queue_length" =
        (if cfg.maxQueueLength = 0 then .str "unlimited"
         else .num cfg.maxQueueLength) := by
  have hcap' : ¬(0 < cfg.maxQueueLength ∧
      cfg.maxQueueLength ≤ (st.queue.length : Int)) := by
    rcases hcap with h | h
    · simp [h]
    · rintro ⟨h1, h2⟩; omega
  rw [wrapper_accept_eq cfg jobId data f t0 t1 st u hW hcap']
  refine ⟨rfl, rfl, by simp, rfl, rfl, rfl, ?_⟩
  show (if 0 < cfg.maxQueueLength then JValue.num cfg.maxQueueLength
        else .str "unlimited") = _
  rcases hcap with h | h
  · simp [h]
  · have hpos : 0 < cfg.maxQueueLength := by
      have : (0 : Int) ≤ (st.queue.length : Int) := Int.natCast_nonneg _
      omega
    rw [if_pos hpos, if_neg (by omega)]

theorem wrapper_deferred_enqueues_witness :
    payloadCb.webhookUrl = some "http://cb"
    ∧ (cfg0.maxQueueLength = 0 ∨
        (st0.queue.length : Int) < cfg0.maxQueueLength)
    ∧ ((wrapper cfg0 false "j1" payloadCb workOk 0 0 st0).1.2 = 202
       ∧ (wrapper cfg0 false "j1" payloadCb workOk 0 0 st0).2.queue =
           st0.queue ++ [⟨"j1", payloadCb, workOk, 0⟩]
       ∧ (wrapper cfg0 false "j1" payloadCb workOk 0 0 st0).2.queue.length =
           st0.queue.length + 1
       ∧ (wrapper cfg0 false "j1" payloadCb workOk 0 0 st0).2.events =
           st0.events ++ [⟨.queued, "j1", cfg0.queueId, cfg0.pid, none⟩]
       ∧ lookupField (wrapper cfg0 false "j1" payloadCb workOk 0 0 st0).1.1
           "code" = .num 202
       ∧ lookupField (wrapper cfg0 false "j1" payloadCb workOk 0 0 st0).1.1
           "message" = .str "processing"
       ∧ lookupField (wrapper cfg0 false "j1" payloadCb workOk 0 0 st0).1.1
           "max_queue_length" =
           (if cfg0.maxQueueLength = 0 then .str "unlimited"
            else .num cfg0.maxQueueLength)) :=
  ⟨rfl, Or.inl rfl,
   wrapper_deferred_enqueues cfg0 "j1" payloadCb workOk 0 0 st0 "http://cb"
     rfl (Or.inl rfl)⟩

/-- C2: with a callback address present, bypass unset, a positive
configured maximum and the queue at or over it, admission returns 429,
the message names the configured limit, a done StatusEvent carrying the
rejection envelope is logged, and the queue is unchanged. -/
theorem wrapper_rejects_when_full (cfg : Config) (jobId : String)
    (data : Payload) (f : WorkResult) (t0 t1 : ℚ) (st : EngineState)
    (u : String) (hW : data.webhookUrl = some u)
    (hpos : 0 < cfg.maxQueueLength)
    (hfull : cfg.maxQueueLength ≤ (st.queue.length : Int)) :
    (wrapper cfg false jobId data f t0 t1 st).1.2 = 429
    ∧ (wrapper cfg false jobId data f t0 t1 st).2.queue = st.queue
    ∧ (wrapper cfg false jobId data f t0 t1 st).1.1 =
        error_response cfg data jobId st.queue.length
    ∧ (wrapper cfg false jobId data f t0 t1 st).2.events =
        st.events ++ [⟨.done, jobId, cfg.queueId, cfg.pid,
          some (error_response cfg data jobId st.queue.length)⟩]
    ∧ lookupField (wrapper cfg false jobId data f t0 t1 st).1.1 "code" =
        .num 429
    ∧ lookupField (wrapper cfg false jobId data f t0 t1 st).1.1 "message" =
        .str ("MAX_QUEUE_LENGTH (" ++ toString cfg.maxQueueLength
          ++ ") reached") := by
  rw [wrapper_reject_eq cfg jobId data f t0 t1 st u hW ⟨hpos, hfull⟩]
  exact ⟨rfl, rfl, rfl, rfl, rfl, rfl⟩

theorem wrapper_rejects_when_full_witness :
    payloadCb.webhookUrl = some "http://cb"
    ∧ 0 < cfg2.maxQueueLength
    ∧ cfg2.maxQueueLength ≤ (stFull.queue.length : Int)
    ∧ ((wrapper cfg2 false "j2" payloadCb workOk 0 0 stFull).1.2 = 429
       ∧ (wrapper cfg2 false "j2" payloadCb workOk 0 0 stFull).2.queue =
           stFull.queue
       ∧ (wrapper cfg2 false "j2" payloadCb workOk 0 0 stFull).1.1 =
           error_response cfg2 payloadCb "j2" stFull.queue.length
       ∧ (wrapper cfg2 false "j2" payloadCb workOk 0 0 stFull).2.events =
           stFull.events ++ [⟨.done, "j2", cfg2.queueId, cfg2.pid,
             some (error_response cfg2 payloadCb "j2"
               stFull.queue.length)⟩]
       ∧ lookupField
           (wrapper cfg2 false "j2" payloadCb workOk 0 0 stFull).1.1
           "code" = .num 429
       ∧ lookupField
           (wrapper cfg2 false "j2" payloadCb workOk 0 0 stFull).1.1
           "message" = .str ("MAX_QUEUE_LENGTH ("
             ++ toString cfg2.maxQueueLength ++ ") reached")) :=
  ⟨rfl, by decide, by decide,
   wrapper_rejects_when_full cfg2 "j2" payloadCb workOk 0 0 stFull
     "http://cb" rfl (by decide) (by decide)⟩

/-- C5: when the payload has no callback address key, or the endpoint is
bypass-marked, admission runs the work inline and never touches the
queue: the queue is identical before and after, and the returned status
is the closure's own code. -/
theorem wrapper_inline_no_enqueue (cfg : Config) (bq : Bool)
    (jobId : String) (data : Payload) (f : WorkResult) (t0 t1 : ℚ)
    (st : EngineState) (h : bq = true ∨ data.webhookUrl = none) :
    (wrapper cfg bq jobId data f t0 t1 st).2.queue = st.queue
    ∧ (wrapper cfg bq jobId data f t0 t1 st).2.queue.length =
        st.queue.length
    ∧ (wrapper cfg bq jobId data f t0 t1 st).1.2 = f.code := by
  rw [wrapper_inline_eq cfg bq jobId data f t0 t1 st h]
  exact ⟨rfl, rfl, rfl⟩

theorem wrapper_inline_no_enqueue_witness :
    ((true : Bool) = true ∨ payloadCb.webhookUrl = none)
    ∧ ((wrapper cfg0 true "j3" payloadCb workOk 0 0 st0).2.queue = st0.queue
       ∧ (wrapper cfg0 true "j3" payloadCb workOk 0 0 st0).2.queue.length =
           st0.queue.length
       ∧ (wrapper cfg0 true "j3" payloadCb workOk 0 0 st0).1.2 =
           workOk.code) :=
  ⟨Or.inl rfl,
   wrapper_inline_no_enqueue cfg0 true "j3" payloadCb workOk 0 0 st0
     (Or.inl rfl)⟩

/-- C6: on the inline path the wrapper logs a running StatusEvent before
the work and a done StatusEvent after it, and returns the inline envelope
paired with the closure's own status code; the envelope's `code` is the
closure's code, `response` is the body exactly when the code is 200 (else
null), and `message` is "success" exactly when the code is 200 (else the
body). -/
theorem wrapper_inline_events_and_code (cfg : Config) (bq : Bool)
    (jobId : String) (data : Payload) (f : WorkResult) (t0 t1 : ℚ)
    (st : EngineState) (h : bq = true ∨ data.webhookUrl = none) :
    (wrapper cfg bq jobId data f t0 t1 st).1.1 =
        inline_response_obj cfg data jobId f (t1 - t0) st.queue.length
    ∧ (wrapper cfg bq jobId data f t0 t1 st).1.2 = f.code
    ∧ (wrapper cfg bq jobId data f t0 t1 st).2.events =
        st.events ++
          [⟨.running, jobId, cfg.queueId, cfg.pid, none⟩,
           ⟨.done, jobId, cfg.queueId, cfg.pid,
             some (inline_response_obj cfg data jobId f (t1 - t0)
               st.queue.length)⟩]
    ∧ lookupField (wrapper cfg bq jobId data f t0 t1 st).1.1 "code" =
        .num f.code
    ∧ lookupField (wrapper cfg bq jobId data f t0 t1 st).1.1 "response" =
        (if f.code = 200 then f.body else .null)
    ∧ lookupField (wrapper cfg bq jobId data f t0 t1 st).1.1 "message" =
        (if f.code = 200 then .str "success" else f.body) := by
  rw [wrapper_inline_eq cfg bq jobId data f t0 t1 st h]
  exact ⟨rfl, rfl, rfl, rfl, rfl, rfl⟩

theorem wrapper_inline_events_and_code_witness :
    ((false : Bool) = true ∨ payloadNoCb.webhookUrl = none)
    ∧ ((wrapper cfg0 false "j4" payloadNoCb workOops 0 0 st0).1.1 =
         inline_response_obj cfg0 payloadNoCb "j4" workOops (0 - 0)
           st0.queue.length
       ∧ (wrapper cfg0 false "j4" payloadNoCb workOops 0 0 st0).1.2 = 500
       ∧ (wrapper cfg0 false "j4" payloadNoCb workOops 0 0 st0).2.events =
           st0.events ++
             [⟨.running, "j4", cfg0.queueId, cfg0.pid, none⟩,
              ⟨.done, "j4", cfg0.queueId, cfg0.pid,
                some (inline_response_obj cfg0 payloadNoCb "j4" workOops
                  (0 - 0) st0.queue.length)⟩]
       ∧ lookupField
           (wrapper cfg0 false "j4" payloadNoCb workOops 0 0 st0).1.1
           "code" = .num 500
       ∧ lookupField
           (wrapper cfg0 false "j4" payloadNoCb workOops 0 0 st0).1.1
           "response" = .null
       ∧ lookupField
           (wrapper cfg0 false "j4" payloadNoCb workOops 0 0 st0).1.1
           "message" = .str "oops") :=
  ⟨Or.inr rfl,
   wrapper_inline_events_and_code cfg0 false "j4" payloadNoCb workOops 0 0
     st0 (Or.inr rfl)⟩

/-! ## Claims C3 and C4 -/

/-- C3 counterexample: the 202 acknowledgement is an envelope produced by
the engine whose code is not 200, yet whose message is the fixed string
"processing", not the work closure's body. -/
theorem envelope_invariant_counterexample :
    lookupField (wrapper cfg0 false "j5" payloadCb workOk 0 0 st0).1.1
      "code" = JValue.num 202
    ∧ JValue.num 202 ≠ JValue.num 200
    ∧ lookupField (wrapper cfg0 false "j5" payloadCb workOk 0 0 st0).1.1
        "message" = JValue.str "processing"
    ∧ JValue.str "processing" ≠ workOk.body := by
  refine ⟨rfl, ?_, rfl, by decide⟩
  intro h
  injection h with h'
  norm_num at h'

/-- C3 (amended): for the two envelopes built from a work result (inline
and worker done), `response` is the closure's body exactly when the code
is 200 and null otherwise, and `message` is "success" exactly when the
code is 200 and the closure's body otherwise; the 202 acknowledgement and
the 429 rejection carry no `response` key (it reads as null) and fixed
messages "processing" and "MAX_QUEUE_LENGTH (max) reached". -/
theorem envelope_invariant_amended (cfg : Config) (data : Payload)
    (jobId : String) (res : WorkResult) (rt qt tot : ℚ) (n : Nat) :
    lookupField (inline_response_obj cfg data jobId res rt n) "response" =
        (if res.code = 200 then res.body else .null)
    ∧ lookupField (inline_response_obj cfg data jobId res rt n) "message" =
        (if res.code = 200 then .str "success" else res.body)
    ∧ lookupField (worker_response_data cfg data jobId res rt qt tot n)
        "response" = (if res.code = 200 then res.body else .null)
    ∧ lookupField (worker_response_data cfg data jobId res rt qt tot n)
        "message" = (if res.code = 200 then .str "success" else res.body)
    ∧ lookupField (ack_response cfg data jobId n) "response" = .null
    ∧ lookupField (ack_response cfg data jobId n) "message" =
        .str "processing"
    ∧ lookupField (error_response cfg data jobId n) "response" = .null
    ∧ lookupField (error_response cfg data jobId n) "message" =
        .str ("MAX_QUEUE_LENGTH (" ++ toString cfg.maxQueueLength
          ++ ") reached") :=
  ⟨rfl, rfl, rfl, rfl, rfl, rfl, rfl, rfl⟩

/-- C4 counterexample: the engine's actual 202 acknowledgement has only
nine keys (no `response`, `run_time`, `queue_time`, `total_time`), and
the worker's done envelope has a thirteenth key `endpoint` beyond the
claimed twelve. -/
theorem envelope_keys_counterexample :
    envKeys (wrapper cfg0 false "j5" payloadCb workOk 0 0 st0).1.1 =
      ["code", "id", "job_id", "message", "pid", "queue_id",
       "max_queue_length", "queue_length", "build_number"]
    ∧ "run_time" ∉
        envKeys (wrapper cfg0 false "j5" payloadCb workOk 0 0 st0).1.1
    ∧ (process_queue_step cfg0 0 0 0 0
         ⟨[⟨"j5", payloadCb, workOk, 0⟩], [], []⟩).map
        (fun st1 => st1.events.map (fun e => e.response.map envKeys)) =
      some [none,
            some ["endpoint", "code", "id", "job_id", "response", "message",
                  "pid", "queue_id", "run_time", "queue_time", "total_time",
                  "queue_length", "build_number"]] := by
  refine ⟨rfl, ?_, rfl⟩
  decide

/-- C4 (amended): the inline envelope has exactly the twelve claimed
keys; the worker done envelope has those plus `endpoint` (first); the 202
acknowledgement has exactly `code, id, job_id, message, pid, queue_id,
max_queue_length, queue_length, build_number`; the 429 rejection has
those minus `max_queue_length`. -/
theorem envelope_keys_amended (cfg : Config) (data : Payload)
    (jobId : String) (res : WorkResult) (rt qt tot : ℚ) (n : Nat) :
    envKeys (inline_response_obj cfg data jobId res rt n) =
      ["code", "id", "job_id", "response", "message", "run_time",
       "queue_time", "total_time", "pid", "queue_id", "queue_length",
       "build_number"]
    ∧ envKeys (worker_response_data cfg data jobId res rt qt tot n) =
      ["endpoint", "code", "id", "job_id", "response", "message", "pid",
       "queue_id", "run_time", "queue_time", "total_time", "queue_length",
       "build_number"]
    ∧ envKeys (ack_response cfg data jobId n) =
      ["code", "id", "job_id", "message", "pid", "queue_id",
       "max_queue_length", "queue_length", "build_number"]
    ∧ envKeys (error_response cfg data jobId n) =
      ["code", "id", "job_id", "message", "pid", "queue_id",
       "queue_length", "build_number"] :=
  ⟨rfl, rfl, rfl, rfl⟩

/-! ## Claim C9 -/

/-- C9: a payload whose `webhook_url` key holds the empty string takes
the deferred path (202, job enqueued) because admission tests key
presence only; yet when the worker later processes any such job, the
notifier is never invoked, because notification tests truthiness of the
value. -/
theorem empty_webhook_never_notified (cfg : Config) (jobId : String)
    (data : Payload) (f : WorkResult) (t0 t1 : ℚ) (st : EngineState)
    (hW : data.webhookUrl = some "")
    (hcap : ¬(0 < cfg.maxQueueLength ∧
      cfg.maxQueueLength ≤ (st.queue.length : Int))) :
    (wrapper cfg false jobId data f t0 t1 st).1.2 = 202
    ∧ (wrapper cfg false jobId data f t0 t1 st).2.queue =
        st.queue ++ [⟨jobId, data, f, t0⟩]
    ∧ ∀ (j : Job) (rest : List Job) (evs : List StatusEvent)
        (whs : List (String × List (String × JValue))) (c1 c2 c3 c4 : ℚ),
        j.data.webhookUrl = some "" →
        ∃ st1, process_queue_step cfg c1 c2 c3 c4 ⟨j :: rest, evs, whs⟩ =
            some st1
          ∧ st1.webhooks = whs := by
  rw [wrapper_accept_eq cfg jobId data f t0 t1 st "" hW hcap]
  refine ⟨rfl, rfl, ?_⟩
  intro j rest evs whs c1 c2 c3 c4 hj
  exact ⟨_, rfl, by simp [notifyList, hj]⟩

theorem empty_webhook_never_notified_witness :
    payloadEmptyCb.webhookUrl = some ""
    ∧ ¬(0 < cfg0.maxQueueLength ∧
        cfg0.maxQueueLength ≤ (st0.queue.length : Int))
    ∧ (wrapper cfg0 false "j6" payloadEmptyCb workOk 0 0 st0).1.2 = 202
    ∧ (wrapper cfg0 false "j6" payloadEmptyCb workOk 0 0 st0).2.queue =
        st0.queue ++ [⟨"j6", payloadEmptyCb, workOk, 0⟩]
    ∧ ∃ st1, process_queue_step cfg0 0 0 0 0
          ⟨[⟨"j6", payloadEmptyCb, workOk, 0⟩], [], []⟩ = some st1
        ∧ st1.webhooks = [] := by
  have h := empty_webhook_never_notified cfg0 "j6" payloadEmptyCb workOk 0 0
    st0 rfl (by decide)
  exact ⟨rfl, by decide, h.1, h.2.1,
    h.2.2 ⟨"j6", payloadEmptyCb, workOk, 0⟩ [] [] [] 0 0 0 0 rfl⟩

/-! ## Claim C10 -/

/-- C10: whenever `download_file` re-raises an exception, no file is left
at the chosen destination path: every failing branch runs the cleanup
that removes any (possibly partial) download before propagating. -/
theorem download_file_error_atomicity (get : HttpGet) (s3 : S3Attempt)
    (stream : StreamWrite) (local_filename : String) (fs : String → Bool)
    (h : (download_file get s3 stream local_filename fs).2 = none) :
    (download_file get s3 stream local_filename fs).1 local_filename =
      false := by
  have hclean : ∀ g : String → Bool,
      exceptCleanup g local_filename local_filename = false := by
    intro g
    unfold exceptCleanup fsRemove
    rcases hg : g local_filename with _ | _
    · simp [hg]
    · simp
  rcases get with _ | code
  · exact hclean fs
  · simp only [download_file] at h ⊢
    by_cases h403 : code = 403
    · rw [if_pos h403] at h ⊢
      rcases s3 with _ | _ | _
      · exact hclean fs
      · simp at h
      · exact hclean _
    · rw [if_neg h403] at h ⊢
      by_cases h4 : 400 ≤ code ∧ code < 600
      · rw [if_pos h4] at h ⊢
        exact hclean fs
      · rw [if_neg h4] at h ⊢
        rcases stream with _ | _
        · simp at h
        · exact hclean _

theorem download_file_error_atomicity_witness :
    (download_file (.status 200) .returnsFalse .raisesMidway "/tmp/x.mp4"
      (fun _ => false)).2 = none
    ∧ (download_file (.status 200) .returnsFalse .raisesMidway "/tmp/x.mp4"
        (fun _ => false)).1 "/tmp/x.mp4" = false :=
  ⟨rfl, download_file_error_atomicity (.status 200) .returnsFalse
    .raisesMidway "/tmp/x.mp4" (fun _ => false) rfl⟩

/-! ## Claim C7: FIFO processing order -/

/-- Projecting done-event job ids commutes with the `eventSig`
projection. -/
theorem doneIds_eq_sig_filter (evs : List StatusEvent) :
    (evs.filter (fun e => e.job_status == JobStatus.done)).map
        StatusEvent.job_id =
      ((evs.map eventSig).filter (fun p => p.2 == JobStatus.done)).map
        Prod.fst := by
  induction evs with
  | nil => rfl
  | cons e evs ih =>
    simp only [List.map_cons, List.filter_cons]
    by_cases he : e.job_status = JobStatus.done
    · simp [eventSig, he, ih]
    · simp [eventSig, he, ih]

/-- Each job's running/done block contributes exactly its job id to the
done-filtered trace. -/
theorem flatten_filter_doneIds (js : List Job) :
    (((js.map (fun j =>
        [(j.jobId, JobStatus.running), (j.jobId, JobStatus.done)])).flatten.filter
          (fun p => p.2 == JobStatus.done)).map Prod.fst) =
      js.map Job.jobId := by
  have h1 : (JobStatus.running == JobStatus.done) = false := rfl
  have h2 : (JobStatus.done == JobStatus.done) = true := rfl
  induction js with
  | nil => rfl
  | cons j js ih =>
    simp only [List.map_cons, List.flatten_cons, List.filter_append,
      List.map_append, ih]
    simp [List.filter_cons, h1, h2]

/-- The worker loop appends, for each processed job in queue order, a
running signature followed by a done signature, and processes exactly the
first `cs.length` queued jobs. -/
theorem runWorker_events_map (cfg : Config) (cs : List (ℚ × ℚ × ℚ × ℚ))
    (st : EngineState) :
    (runWorker cfg cs st).events.map eventSig =
      st.events.map eventSig ++
        ((st.queue.take cs.length).map (fun j =>
          [(j.jobId, JobStatus.running), (j.jobId, JobStatus.done)])).flatten := by
  induction cs generalizing st with
  | nil => simp [runWorker]
  | cons c cs ih =>
    rcases hq : st.queue with _ | ⟨j, rest⟩
    · simp only [runWorker, process_queue_step, hq]
      simp
    · simp only [runWorker, process_queue_step, hq]
      rw [ih]
      simp [eventSig, hq]

/-- C7: with the single worker, for any state whose queue holds the jobs
J1..JN in order and enough clock readings to drain it, the worker's
status trace extends the prior trace with, per job in exactly the
submission order J1..JN, a running event followed by that job's done
event; in particular the done StatusEvents appear in exactly the order
J1..JN with no interleaving or reordering. -/
theorem worker_fifo (cfg : Config) (cs : List (ℚ × ℚ × ℚ × ℚ))
    (st : EngineState) (h : st.queue.length ≤ cs.length) :
    (runWorker cfg cs st).events.map eventSig =
      st.events.map eventSig ++
        (st.queue.map (fun j =>
          [(j.jobId, JobStatus.running), (j.jobId, JobStatus.done)])).flatten
    ∧ ((runWorker cfg cs st).events.filter
        (fun e => e.job_status == JobStatus.done)).map StatusEvent.job_id =
      (st.events.filter (fun e => e.job_status == JobStatus.done)).map
          StatusEvent.job_id
        ++ st.queue.map Job.jobId := by
  have h1 := runWorker_events_map cfg cs st
  rw [List.take_of_length_le h] at h1
  refine ⟨h1, ?_⟩
  rw [doneIds_eq_sig_filter, h1, List.filter_append, List.map_append,
    flatten_filter_doneIds, ← doneIds_eq_sig_filter]

theorem worker_fifo_witness :
    stFull.queue.length ≤ ([(0, 0, 0, 0), (1, 1, 1, 1)] :
      List (ℚ × ℚ × ℚ × ℚ)).length
    ∧ ((runWorker cfg2 [(0, 0, 0, 0), (1, 1, 1, 1)] stFull).events.map
        eventSig =
      stFull.events.map eventSig ++
        (stFull.queue.map (fun j =>
          [(j.jobId, JobStatus.running), (j.jobId, JobStatus.done)])).flatten
      ∧ ((runWorker cfg2 [(0, 0, 0, 0), (1, 1, 1, 1)] stFull).events.filter
          (fun e => e.job_status == JobStatus.done)).map StatusEvent.job_id =
        (stFull.events.filter
            (fun e => e.job_status == JobStatus.done)).map StatusEvent.job_id
          ++ stFull.queue.map Job.jobId) :=
  ⟨by decide,
   worker_fifo cfg2 [(0, 0, 0, 0), (1, 1, 1, 1)] stFull (by decide)⟩

/-! ## Claim C8: timing invariant -/

/-- Round-half-to-even moves a rational by at most one half. -/
theorem roundHalfEven_close (q : ℚ) : |(roundHalfEven q : ℚ) - q| ≤ 1/2 := by
  have h1 : (⌊q⌋ : ℚ) ≤ q := Int.floor_le q
  have h2 : q < ⌊q⌋ + 1 := Int.lt_floor_add_one q
  unfold roundHalfEven
  split_ifs with hlt hgt heven
  · rw [abs_le]
    constructor <;> linarith
  · rw [abs_le]
    constructor <;> push_cast <;> linarith
  · rw [abs_le]
    constructor <;> linarith
  · rw [abs_le]
    constructor <;> push_cast <;> linarith

/-- `round3` moves a rational by at most half a thousandth. -/
theorem round3_close (q : ℚ) : |round3 q - q| ≤ 1/2000 := by
  have h := roundHalfEven_close (q * 1000)
  unfold round3
  have hrw : (roundHalfEven (q * 1000) : ℚ) / 1000 - q =
      ((roundHalfEven (q * 1000) : ℚ) - q * 1000) / 1000 := by ring
  rw [hrw, abs_div, abs_of_pos (by norm_num : (0 : ℚ) < 1000)]
  rw [abs_le] at h
  rw [div_le_iff₀ (by norm_num : (0 : ℚ) < 1000), abs_le]
  constructor <;> linarith

/-- C8: the inline envelope's `queue_time` field is exactly 0; for a
deferred job enqueued at `t0` and processed with clock readings
`c1 ≤ c2` (dequeue, run start) and `c3 ≤ c4` (run end, envelope build),
the done envelope's `queue_time`, `run_time` and `total_time` fields are
the rounded `c1 - t0`, `c3 - c2` and `c4 - t0`, and total_time differs
from queue_time + run_time by at most the inter-reading gaps plus the
rounding slack `3/2000`. -/
theorem timing_invariant (cfg : Config) (data : Payload) (jobId : String)
    (res : WorkResult) (rt : ℚ) (n : Nat) (t0 c1 c2 c3 c4 : ℚ)
    (h12 : c1 ≤ c2) (h34 : c3 ≤ c4) :
    lookupField (inline_response_obj cfg data jobId res rt n) "queue_time" =
      JValue.num 0
    ∧ lookupField (worker_response_data cfg data jobId res (c3 - c2)
        (c1 - t0) (c4 - t0) n) "queue_time" = .num (round3 (c1 - t0))
    ∧ lookupField (worker_response_data cfg data jobId res (c3 - c2)
        (c1 - t0) (c4 - t0) n) "run_time" = .num (round3 (c3 - c2))
    ∧ lookupField (worker_response_data cfg data jobId res (c3 - c2)
        (c1 - t0) (c4 - t0) n) "total_time" = .num (round3 (c4 - t0))
    ∧ |round3 (c4 - t0) - (round3 (c1 - t0) + round3 (c3 - c2))| ≤
        (c2 - c1) + (c4 - c3) + 3/2000
    ∧ ∀ (rest : List Job) (evs : List StatusEvent)
        (whs : List (String × List (String × JValue))),
        process_queue_step cfg c1 c2 c3 c4
            ⟨⟨jobId, data, res, t0⟩ :: rest, evs, whs⟩ =
          some ⟨rest,
                evs ++
                  [⟨.running, jobId, cfg.queueId, cfg.pid, none⟩,
                   ⟨.done, jobId, cfg.queueId, cfg.pid,
                     some (worker_response_data cfg data jobId res (c3 - c2)
                       (c1 - t0) (c4 - t0) rest.length)⟩],
                whs ++ notifyList data (worker_response_data cfg data jobId
                  res (c3 - c2) (c1 - t0) (c4 - t0) rest.length)⟩ := by
  refine ⟨rfl, rfl, rfl, rfl, ?_, fun rest evs whs => rfl⟩
  have hT := round3_close (c4 - t0)
  have hQ := round3_close (c1 - t0)
  have hR := round3_close (c3 - c2)
  rw [abs_le] at hT hQ hR ⊢
  constructor <;> linarith

theorem timing_invariant_witness :
    (0 : ℚ) ≤ 0
    ∧ (lookupField (inline_response_obj cfg0 payloadCb "j7" workOk 0 0)
         "queue_time" = JValue.num 0
       ∧ lookupField (worker_response_data cfg0 payloadCb "j7" workOk
           (0 - 0) (0 - 0) (0 - 0) 0) "queue_time" = .num (round3 (0 - 0))
       ∧ lookupField (worker_response_data cfg0 payloadCb "j7" workOk
           (0 - 0) (0 - 0) (0 - 0) 0) "run_time" = .num (round3 (0 - 0))
       ∧ lookupField (worker_response_data cfg0 payloadCb "j7" workOk
           (0 - 0) (0 - 0) (0 - 0) 0) "total_time" = .num (round3 (0 - 0))
       ∧ |round3 ((0 : ℚ) - 0) - (round3 ((0 : ℚ) - 0)
           + round3 ((0 : ℚ) - 0))| ≤
           ((0 : ℚ) - 0) + ((0 : ℚ) - 0) + 3/2000
       ∧ process_queue_step cfg0 0 0 0 0
             ⟨[⟨"j7", payloadCb, workOk, 0⟩], [], []⟩ =
           some ⟨[],
                 [] ++
                   [⟨.running, "j7", cfg0.queueId, cfg0.pid, none⟩,
                    ⟨.done, "j7", cfg0.queueId, cfg0.pid,
                      some (worker_response_data cfg0 payloadCb "j7" workOk
                        (0 - 0) (0 - 0) (0 - 0) ([] : List Job).length)⟩],
                 [] ++ notifyList payloadCb (worker_response_data cfg0
                   payloadCb "j7" workOk (0 - 0) (0 - 0) (0 - 0)
                   ([] : List Job).length)⟩) := by
  have h := timing_invariant cfg0 payloadCb "j7" workOk 0 0 0 0 0 0 0
    (le_refl 0) (le_refl 0)
  exact ⟨le_refl 0, h.1, h.2.1, h.2.2.1, h.2.2.2.1, h.2.2.2.2.1,
    h.2.2.2.2.2 [] [] []⟩
